import Mathlib

/-!
Shallow embedding of the carrothu-cn/arkos4clone repository.

Part 1 embeds the Go program `dtb_selector_XiFan.go`: the menu table, the
input-reading loops, and the post-selection copy pipeline of `main`.
OS-level effects (directory existence, directory copies) are represented by
boolean oracles on path strings, and the run of the program is recorded as
the list of filesystem-mutating calls it performs.

Part 2 embeds the shell script `replace_file/tools/SSH over OTG for ArkOS.sh`:
the four bring-up step functions and the `main` orchestration, over an
environment of command outcomes.

Part 3 embeds the event-line dispatch of `bin/adc-key/adckeys.sh`.
-/

namespace Arkos

/-- One entry of the Go menu table (struct `Option`, dtb_selector_XiFan.go
lines 14-18): a display name, the `consoles/<Real>` directory name, and the
`consoles/<Logo>` directory name. -/
structure XiFanOption where
  display : String
  real : String
  logo : String
deriving DecidableEq

/-- The menu table `XiFanOptions` (dtb_selector_XiFan.go lines 20-29). -/
def XiFanOptions : List XiFanOption := [
  ⟨"XiFan Mymini", "mymini", "logo/480P/"⟩,
  ⟨"XiFan R36Max", "r36max", "logo/720P/"⟩,
  ⟨"XiFan R36Pro", "r36pro", "logo/480P/"⟩,
  ⟨"XiFan XF35H", "xf35h", "logo/480P/"⟩,
  ⟨"XiFan XF40H", "xf40h", "logo/720P/"⟩,
  ⟨"XiFan XF40V", "dc40v", "logo/720P/"⟩,
  ⟨"XiFan DC40V", "dc40v", "logo/720P/"⟩,
  ⟨"XiFan DC35V", "dc35v", "logo/480P/"⟩]

/-- Value of a decimal digit character, `none` on a non-digit. -/
def digitVal (c : Char) : Option Nat :=
  if 48 ≤ c.toNat && c.toNat ≤ 57 then some (c.toNat - 48) else none

/-- Accumulating decimal evaluation of a character list; `none` as soon as a
non-digit appears. -/
def digitsAux : List Char → Nat → Option Nat
  | [], acc => some acc
  | c :: cs, acc =>
    match digitVal c with
    | some d => digitsAux cs (acc * 10 + d)
    | none => none

/-- Decimal value of a non-empty all-digit character list, `none` otherwise. -/
def digitsVal : List Char → Option Nat
  | [] => none
  | cs => digitsAux cs 0

/-- Embedding of Go `strconv.Atoi` as used by `readIntChoice`: an optional
leading sign followed by at least one decimal digit; anything else is an
error (`none`).  Integer overflow is not modelled: every input the claims
touch is at most one digit. -/
def strconvAtoi (s : String) : Option Int :=
  match s.data with
  | [] => none
  | c :: cs =>
    if c = Char.ofNat 45 then (digitsVal cs).map (fun v => -(v : Int))
    else if c = Char.ofNat 43 then (digitsVal cs).map (fun v => (v : Int))
    else (digitsVal (c :: cs)).map (fun v => (v : Int))

/-- Whitespace test of Go `strings.TrimSpace` (ASCII part: space, tab,
newline, carriage return, vertical tab, form feed). -/
def goIsSpace (c : Char) : Bool :=
  c.toNat = 32 || (9 ≤ c.toNat && c.toNat ≤ 13)

/-- Embedding of Go `strings.TrimSpace` as used by `prompt`
(dtb_selector_XiFan.go line 87): drop whitespace from both ends. -/
def trimSpace (s : String) : String :=
  ⟨((s.data.dropWhile goIsSpace).reverse.dropWhile goIsSpace).reverse⟩

/-- ASCII lower-casing of one character. -/
def asciiLower (c : Char) : Char :=
  if 65 ≤ c.toNat ∧ c.toNat ≤ 90 then Char.ofNat (c.toNat + 32) else c

/-- Embedding of Go `strings.ToLower` on the inputs that matter here
(ASCII): lower-case every character. -/
def toLowerStr (s : String) : String := ⟨s.data.map asciiLower⟩

/-- The quit test of `readIntChoice` (dtb_selector_XiFan.go lines 96-99):
the lower-cased trimmed input is "q", "quit" or "exit". -/
def isQuitToken (s : String) : Bool :=
  let l := toLowerStr s
  l == "q" || l == "quit" || l == "exit"

/-- One iteration of the `readIntChoice` loop body on a single input line
(dtb_selector_XiFan.go lines 92-105): trim the line (Go
`strings.TrimSpace`); a quit token yields 0, a parseable integer yields
its value, anything else (`none`) re-prompts. -/
def readHead (s : String) : Option Int :=
  let resp := trimSpace s
  if isQuitToken resp then some 0 else strconvAtoi resp

/-- Embedding of `readIntChoice` (dtb_selector_XiFan.go lines 90-107) over
the list of lines the user will type.  `none` models the read error at end
of input (Go returns `(-1, err)` and `main` aborts); `some (n, rest)`
returns the first accepted value together with the unconsumed lines. -/
def readIntChoice : List String → Option (Int × List String)
  | [] => none
  | s :: rest =>
    match readHead s with
    | some n => some (n, rest)
    | none => readIntChoice rest

/-- Result of `selectXiFan` (dtb_selector_XiFan.go lines 109-130): a read
error (`eof`, Go's non-nil `err`), a quit (`quit`, Go's `nil, nil`), a
selected menu entry, or a slice-index panic (`panicked`) should the index
`choice-1` ever be out of bounds. -/
inductive SelResult where
  | eof
  | quit (rest : List String)
  | selected (opt : XiFanOption) (rest : List String)
  | panicked
deriving DecidableEq

/-- Embedding of the `selectXiFan` loop (dtb_selector_XiFan.go lines
117-129).  Both the inner `readIntChoice` loop and the outer re-prompt loop
consume exactly one input line per iteration, so the two nested source
loops are embedded as one structural recursion on the input list; the
theorem `selectXiFan_loop_eq` below recovers the source's two-level
structure literally.  The slice access `XiFanOptions[choice-1]` is embedded
by `List.get?` with the out-of-bounds case mapped to `panicked`. -/
def selectXiFan : List String → SelResult
  | [] => SelResult.eof
  | s :: rest =>
    match readHead s with
    | none => selectXiFan rest
    | some n =>
      if n = 0 then SelResult.quit rest
      else if 0 < n ∧ n ≤ (XiFanOptions.length : Int) then
        match XiFanOptions.get? (n - 1).toNat with
        | some o => SelResult.selected o rest
        | none => SelResult.panicked
      else selectXiFan rest

/-- Filesystem oracle for the Go program: whether `os.Stat` finds a path,
and whether `copyDirectory` of a source path into the current directory
succeeds.  `copyDirectory` (dtb_selector_XiFan.go lines 56-78) walks the
source tree copying files; its internal behaviour is OS-bound, so its
outcome on each source path is an oracle bit. -/
structure FsState where
  dirExists : String → Bool
  copyOk : String → Bool

/-- A filesystem-mutating call performed by the Go `main`:
a `copyDirectory src "."` call, or the `createCNFile` call that creates the
`.cn` marker file (dtb_selector_XiFan.go lines 133-141). -/
inductive Effect where
  | copyDir (src : String)
  | createCN
deriving DecidableEq

/-- Embedding of Go `filepath.Join` on the two-argument uses in `main`.
Path cleaning (dropping a trailing separator) is not modelled: joined paths
are only used as opaque keys of the filesystem oracle, on both sides of
every statement. -/
def filepathJoin (a b : String) : String := a ++ "/" ++ b

/-- Embedding of the post-selection part of `main` (dtb_selector_XiFan.go
lines 159-189) as the list of filesystem-mutating calls it performs:
stat the console directory and abort if absent; copy it and abort on
failure; if the option's logo name is non-empty and the logo directory
exists, copy it and abort on failure (a missing logo directory is skipped);
finally call `createCNFile`. -/
def mainAfterSelect (o : XiFanOption) (fs : FsState) : List Effect :=
  let srcPath := filepathJoin "consoles" o.real
  if !fs.dirExists srcPath then []
  else if !fs.copyOk srcPath then [Effect.copyDir srcPath]
  else if o.logo ≠ "" then
    let logoSrc := filepathJoin "consoles" o.logo
    if fs.dirExists logoSrc then
      if !fs.copyOk logoSrc then [Effect.copyDir srcPath, Effect.copyDir logoSrc]
      else [Effect.copyDir srcPath, Effect.copyDir logoSrc, Effect.createCN]
    else [Effect.copyDir srcPath, Effect.createCN]
  else [Effect.copyDir srcPath, Effect.createCN]

/-- Embedding of the whole Go `main` (dtb_selector_XiFan.go lines 144-193):
run the selection dialogue on the input lines; on a read error or a quit,
`main` returns having performed no filesystem-mutating call; on a
selection, run the copy pipeline. -/
def runProgram (input : List String) (fs : FsState) : List Effect :=
  match selectXiFan input with
  | SelResult.selected o _ => mainAfterSelect o fs
  | _ => []

/-- Outcome environment for one run of `SSH over OTG for ArkOS.sh`: the
success bit of every fallible OS command the four bring-up step functions
invoke, plus the poll oracle `usb0UpAt t` telling whether
`ip link show usb0` succeeds at poll iteration `t` of the wait loop. -/
structure OtgEnv where
  libcompositeOk : Bool
  rndisModOk : Bool
  ecmModOk : Bool
  udcPresent : Bool
  udcName : String
  mkdirGadgetOk : Bool
  rndisFnOk : Bool
  ecmFnOk : Bool
  udcWriteOk : Bool
  usb0UpAt : Nat → Bool
  usb0Exists : Bool
  hasIp : Bool
  hasIfconfig : Bool
  ipAddrAddOk : Bool
  ipLinkUpOk : Bool
  ifconfigOk : Bool
  hasDnsmasq : Bool
  dnsmasqPid : Nat
  dnsmasqAlive : Bool
  gptokeybExists : Bool
  sshAlreadyRunning : Bool
  sshStartCmdOk : Bool
  sshdBinaryExists : Bool
  sshdSpawnAlive : Bool
  sshVerifyOk : Bool

/-- The `usb0` wait loop of `configure_usb_gadget` (script lines 117-123):
`while [ retry -lt 10 ]`, test the interface, break on success, else retry.
The loop runs at most `10 - retry` more iterations, so it is embedded
structurally on that fuel; the result is the final value of `retry`
(the first poll index at which the interface is up, or 10). -/
def waitUsb0From (up : Nat → Bool) : Nat → Nat → Nat
  | retry, 0 => retry
  | retry, fuel + 1 => if up retry then retry else waitUsb0From up (retry + 1) fuel

/-- The wait loop started at `retry=0` as in the script. -/
def waitUsb0 (up : Nat → Bool) : Nat := waitUsb0From up 0 10

/-- Number of `ip link show usb0` tests the wait loop performs, with the
same fuel as `waitUsb0From`. -/
def waitUsb0PollsFrom (up : Nat → Bool) : Nat → Nat → Nat
  | _, 0 => 0
  | retry, fuel + 1 => if up retry then 1 else 1 + waitUsb0PollsFrom up (retry + 1) fuel

/-- Number of interface tests of the wait loop started at `retry=0`. -/
def waitUsb0Polls (up : Nat → Bool) : Nat := waitUsb0PollsFrom up 0 10

/-- The `add_run_log` warnings emitted by the first `r` failed polls of the
wait loop (script line 120). -/
def usb0WarnLogs (r : Nat) : List String :=
  (List.range r).map (fun k => "[WARNING] usb0 not ready (try " ++ Nat.repr (k + 1) ++ "/10)")

/-- Embedding of `configure_usb_gadget` (script lines 61-126): success flag
and the `add_run_log` messages.  The unconditional cleanup and the `echo`
writes into configfs carry no failure handling in the source and are not
modelled; each guarded command maps to its environment bit.  The function
fails when a module fails to load, the gadget directory cannot be created,
neither the RNDIS nor the ECM function can be created, the UDC cannot be
started, or `usb0` never appears within the 10 polls (`retry` reaches 10,
script line 124). -/
def configure_usb_gadget (e : OtgEnv) : Bool × List String :=
  if !e.libcompositeOk then (false, ["[ERROR] Could not load libcomposite"])
  else if !e.rndisModOk then (false, ["[ERROR] Could not load rndis"])
  else if !e.ecmModOk then (false, ["[ERROR] Could not load ecm"])
  else
    let udcLog :=
      if e.udcPresent then "[INFO] Found UDC: " ++ e.udcName
      else "[INFO] Using default UDC: ff300000.usb"
    if !e.mkdirGadgetOk then (false, [udcLog, "[ERROR] Could not create gadget dir"])
    else if !(e.rndisFnOk || e.ecmFnOk) then
      (false, [udcLog, "[ERROR] Could not create USB network function"])
    else if !e.udcWriteOk then (false, [udcLog, "[ERROR] Could not start USB gadget"])
    else
      let r := waitUsb0 e.usb0UpAt
      if r = 10 then (false, [udcLog] ++ usb0WarnLogs r ++ ["[ERROR] usb0 not found"])
      else (true, [udcLog] ++ usb0WarnLogs r)

/-- A network-configuration command attempted by `configure_network`. -/
inductive NetAction where
  | flushAddr
  | addAddr (cidr : String)
  | linkUp
  | ifconfigSet (ipAddress mask : String)
deriving DecidableEq

/-- Embedding of `configure_network` (script lines 142-159): success flag,
the configuration commands attempted on `usb0` in order, and the
`add_run_log` messages.  It aborts attempting nothing when `usb0` does not
exist; with `ip` available it flushes (failure ignored), adds
192.168.7.1/24 and brings the link up, aborting on either failure; with
only `ifconfig` available it configures 192.168.7.1 netmask 255.255.255.0
up; with neither it aborts attempting nothing. -/
def configure_network (e : OtgEnv) : Bool × List NetAction × List String :=
  if !e.usb0Exists then (false, [], ["[ERROR] usb0 does not exist"])
  else if e.hasIp then
    if !e.ipAddrAddOk then
      (false, [NetAction.flushAddr, NetAction.addAddr "192.168.7.1/24"],
        ["[WARNING] Could not assign IP with ip"])
    else if !e.ipLinkUpOk then
      (false, [NetAction.flushAddr, NetAction.addAddr "192.168.7.1/24", NetAction.linkUp],
        ["[WARNING] Could not bring up usb0 with ip"])
    else
      (true, [NetAction.flushAddr, NetAction.addAddr "192.168.7.1/24", NetAction.linkUp],
        ["[INFO] interface usb0 brought up with ip"])
  else if e.hasIfconfig then
    if !e.ifconfigOk then
      (false, [NetAction.ifconfigSet "192.168.7.1" "255.255.255.0"],
        ["[WARNING] Could not configure usb0 with ifconfig"])
    else
      (true, [NetAction.ifconfigSet "192.168.7.1" "255.255.255.0"],
        ["[INFO] usb0 configured with ifconfig"])
  else (false, [], ["[ERROR] No ip or ifconfig found"])

/-- Embedding of `start_dhcp_service` (script lines 162-182): fails when
`dnsmasq` is absent; otherwise writes the config, launches `dnsmasq` in the
background and succeeds exactly when the launched process is alive
(`kill -0` check). -/
def start_dhcp_service (e : OtgEnv) : Bool × List String :=
  if !e.hasDnsmasq then (false, ["[ERROR] Dnsmasq not found"])
  else if e.dnsmasqAlive then
    (true, ["[INFO] DHCP started (PID: " ++ Nat.repr e.dnsmasqPid ++ ")"])
  else (false, ["[ERROR] dnsmasq failed to start"])

/-- Embedding of `start_ssh_service` (script lines 192-229): success flag
and log messages.  When SSH is detected running the function only performs
the final verification.  Otherwise it tries the service-start commands
(their success is logged but, as in the source, does not set
`ssh_running`), then, `ssh_running` still being false, spawns
`/usr/sbin/sshd -D` when the binary exists, failing if the spawned process
dies at once; in every surviving path the result is the final
`pgrep`/`systemctl` verification.  The specific service command and PID in
the log texts are abstracted. -/
def start_ssh_service (e : OtgEnv) : Bool × List String :=
  let verdict := fun (logs : List String) =>
    if e.sshVerifyOk then (true, logs ++ ["[INFO] SSH confirmed running"])
    else (false, logs ++ ["[WARNING] SSH may not be running"])
  if e.sshAlreadyRunning then verdict ["[INFO] SSH (sshd) already running"]
  else
    let startLogs := if e.sshStartCmdOk then ["[INFO] SSH started via systemctl start ssh"] else []
    if e.sshdBinaryExists then
      if e.sshdSpawnAlive then verdict (startLogs ++ ["[INFO] SSH started directly"])
      else (false, startLogs ++ ["[ERROR] Could not start SSH daemon"])
    else verdict startLogs

/-- Embedding of `setup_gamepad_support` (script lines 232-240); it always
returns 0. -/
def setup_gamepad_support (e : OtgEnv) : Bool × List String :=
  if e.gptokeybExists then (true, [])
  else (true, ["[WARNING] Gamepad support disabled. gptokeyb not found."])

/-- The procedures `main` invokes, in source order. -/
inductive OtgStep where
  | terminal
  | gamepad
  | gadget
  | network
  | dhcp
  | ssh
deriving DecidableEq

/-- An observable event of the script's `main`: the invocation of one of
its procedures, or an `add_run_log` message. -/
inductive OtgEvent where
  | call (s : OtgStep)
  | log (msg : String)
deriving DecidableEq

/-- The `step && add_run_log ok-msg || add_run_log error-msg` line shape of
`main` (script lines 248-251): the step's own events followed by the
verdict log; the next line runs regardless of the verdict. -/
def stepEvents (s : OtgStep) (result : Bool × List String) (okMsg errMsg : String) :
    List OtgEvent :=
  [OtgEvent.call s] ++ result.2.map OtgEvent.log ++
    [OtgEvent.log (if result.1 then okMsg else errMsg)]

/-- Embedding of the script's `main` (script lines 243-256) as its event
trace: initialize the terminal, set up gamepad support, then run the four
bring-up steps in fixed order; each step's failure is logged via the
`|| add_run_log` branch and never prevents the later steps. -/
def otgMain (e : OtgEnv) : List OtgEvent :=
  [OtgEvent.call OtgStep.terminal] ++
  [OtgEvent.call OtgStep.gamepad] ++ (setup_gamepad_support e).2.map OtgEvent.log ++
  stepEvents OtgStep.gadget (configure_usb_gadget e)
    "[OK] USB Gadget configured" "[ERROR] USB Gadget configuration failed" ++
  stepEvents OtgStep.network
    ((configure_network e).1, (configure_network e).2.2)
    "[OK] Network configured" "[ERROR] Network configuration failed" ++
  stepEvents OtgStep.dhcp (start_dhcp_service e)
    "[OK] DHCP service started" "[ERROR] DHCP service start failed" ++
  stepEvents OtgStep.ssh (start_ssh_service e)
    "[OK] SSH service started" "[ERROR] SSH service start failed"

/-- Projection of an event on its procedure invocation, if any. -/
def callOf : OtgEvent → Option OtgStep
  | OtgEvent.call s => some s
  | OtgEvent.log _ => none

/-- The sequence of procedure invocations of one run of the script. -/
def otgSteps (e : OtgEnv) : List OtgStep := (otgMain e).filterMap callOf

/-- Bash `[[ $s == *"pat"* ]]` substring test, embedded as infix of the
character lists. -/
def containsSub (s pat : String) : Bool := decide (pat.data <:+: s.data)

/-- Embedding of the per-line dispatch of `bin/adc-key/adckeys.sh` (lines
12-28): the `adckeys.py` argument invoked for one `evtest` output line, or
`none`.  The `if/elif` chain gives `BTN_BACK` priority over `BTN_SELECT`
over `BTN_START`, and within a button the `value 1` test priority over the
`value 0` test. -/
def dispatchLine (line : String) : Option String :=
  if containsSub line "BTN_BACK" then
    if containsSub line "value 1" then some "startselect" else none
  else if containsSub line "BTN_SELECT" then
    if containsSub line "value 1" then some "select_press"
    else if containsSub line "value 0" then some "select_release"
    else none
  else if containsSub line "BTN_START" then
    if containsSub line "value 1" then some "start_press"
    else if containsSub line "value 0" then some "start_release"
    else none
  else none

/-- Embedding of one pass of `adckeys.sh` over a finite stream of `evtest`
lines: the guard on line 6 runs the event loop only when the device-tree
model contains "D007 Plus"; the result is the list of `adckeys.py`
invocations. -/
def adckeysRun (model : String) (lines : List String) : List String :=
  if containsSub model "D007 Plus" then lines.filterMap dispatchLine else []

/-- A filesystem oracle on which every path exists and every copy succeeds. -/
def fsAllOk : FsState := ⟨fun _ => true, fun _ => true⟩

/-- An OTG environment on which every command succeeds. -/
def otgEnvBase : OtgEnv where
  libcompositeOk := true
  rndisModOk := true
  ecmModOk := true
  udcPresent := true
  udcName := "fc000000.usb"
  mkdirGadgetOk := true
  rndisFnOk := true
  ecmFnOk := true
  udcWriteOk := true
  usb0UpAt := fun _ => true
  usb0Exists := true
  hasIp := true
  hasIfconfig := true
  ipAddrAddOk := true
  ipLinkUpOk := true
  ifconfigOk := true
  hasDnsmasq := true
  dnsmasqPid := 1234
  dnsmasqAlive := true
  gptokeybExists := true
  sshAlreadyRunning := true
  sshStartCmdOk := true
  sshdBinaryExists := true
  sshdSpawnAlive := true
  sshVerifyOk := true

/-- The all-good environment except that `usb0` never appears. -/
def otgEnvDown : OtgEnv := { otgEnvBase with usb0UpAt := fun _ => false }

/-- The all-good environment except that `ip addr add` fails. -/
def otgEnvIpAddFail : OtgEnv := { otgEnvBase with ipAddrAddOk := false }

/-- The all-good environment except that `usb0` does not exist when
`configure_network` runs. -/
def otgEnvNoUsb0 : OtgEnv := { otgEnvBase with usb0Exists := false }

/-- The fused loop satisfies, step for step, the equations of the source's
two-loop structure: on a read error `selectXiFan` reports `eof`; on a read
value 0 it quits; on a value in range it selects `XiFanOptions[choice-1]`;
on any other value it loops on the remaining input. -/
theorem selectXiFan_loop_eq (input : List String) :
    (readIntChoice input = none → selectXiFan input = SelResult.eof) ∧
    (∀ n rest, readIntChoice input = some (n, rest) →
      selectXiFan input =
        if n = 0 then SelResult.quit rest
        else if 0 < n ∧ n ≤ (XiFanOptions.length : Int) then
          (match XiFanOptions.get? (n - 1).toNat with
           | some o => SelResult.selected o rest
           | none => SelResult.panicked)
        else selectXiFan rest) := by
  induction input with
  | nil =>
    constructor
    · intro _; rfl
    · intro n rest h; simp [readIntChoice] at h
  | cons s rest ih =>
    constructor
    · intro h
      simp only [readIntChoice] at h
      cases hh : readHead s with
      | some n => rw [hh] at h; simp at h
      | none =>
        rw [hh] at h
        simp only [selectXiFan, hh]
        exact ih.1 h
    · intro n r h
      simp only [readIntChoice] at h
      cases hh : readHead s with
      | some m =>
        rw [hh] at h
        simp only [Option.some.injEq, Prod.mk.injEq] at h
        obtain ⟨rfl, rfl⟩ := h
        simp only [selectXiFan, hh]
      | none =>
        rw [hh] at h
        simp only [selectXiFan, hh]
        exact ih.2 n r h

/-- Every menu entry carries a non-empty logo directory name. -/
theorem xifan_logo_nonempty : ∀ i : Fin XiFanOptions.length, (XiFanOptions.get i).logo ≠ "" := by
  decide

/-- The copy pipeline on a successful run: when the console directory
exists, every copy succeeds, and the option has a non-empty logo name, the
calls performed are exactly the console copy, then the logo copy when the
logo directory exists, then the `.cn` creation. -/
theorem mainAfterSelect_success (o : XiFanOption) (fs : FsState)
    (hl : o.logo ≠ "")
    (hr : fs.dirExists (filepathJoin "consoles" o.real) = true)
    (hc : ∀ p, fs.copyOk p = true) :
    mainAfterSelect o fs =
      [Effect.copyDir (filepathJoin "consoles" o.real)] ++
      (if fs.dirExists (filepathJoin "consoles" o.logo) then
        [Effect.copyDir (filepathJoin "consoles" o.logo)] else []) ++
      [Effect.createCN] := by
  simp only [mainAfterSelect, hr, hc, hl, Bool.not_true, if_true, if_false,
    Bool.false_eq_true, ne_eq, not_false_eq_true]
  cases hlogo : fs.dirExists (filepathJoin "consoles" o.logo) <;> simp [hlogo, hc]

/-- Log events contribute no procedure invocation. -/
theorem filterMap_callOf_logs (l : List String) :
    List.filterMap (callOf ∘ OtgEvent.log) l = [] := by
  induction l with
  | nil => rfl
  | cons x xs ih => simp [List.filterMap_cons, Function.comp, callOf, ih]

/-- The wait loop's result never exceeds the starting counter plus the
fuel. -/
theorem waitUsb0From_le_add (up : Nat → Bool) :
    ∀ fuel retry, waitUsb0From up retry fuel ≤ retry + fuel := by
  intro fuel
  induction fuel with
  | zero => intro retry; simp [waitUsb0From]
  | succ f ih =>
    intro retry
    cases hu : up retry
    · simp only [waitUsb0From, hu, Bool.false_eq_true, if_false]
      have := ih (retry + 1)
      omega
    · simp only [waitUsb0From, hu, if_true]
      omega

/-- The wait loop stops at the first up poll: its result is at most any
up index past the start. -/
theorem waitUsb0From_min (up : Nat → Bool) :
    ∀ fuel retry k, retry ≤ k → up k = true → waitUsb0From up retry fuel ≤ k := by
  intro fuel
  induction fuel with
  | zero => intro retry k hk _; simpa [waitUsb0From] using hk
  | succ f ih =>
    intro retry k hk hup
    cases hu : up retry
    · simp only [waitUsb0From, hu, Bool.false_eq_true, if_false]
      have hne : retry ≠ k := by
        intro hq
        rw [hq] at hu
        rw [hu] at hup
        exact Bool.false_ne_true hup
      exact ih (retry + 1) k (by omega) hup
    · simp only [waitUsb0From, hu, if_true]
      exact hk

/-- When every poll in range fails, the wait loop exhausts its fuel. -/
theorem waitUsb0From_all_false (up : Nat → Bool) :
    ∀ fuel retry, (∀ k, retry ≤ k → k < retry + fuel → up k = false) →
      waitUsb0From up retry fuel = retry + fuel := by
  intro fuel
  induction fuel with
  | zero => intro retry _; simp [waitUsb0From]
  | succ f ih =>
    intro retry h
    have hu : up retry = false := h retry (Nat.le_refl retry) (by omega)
    simp only [waitUsb0From, hu, Bool.false_eq_true, if_false]
    have := ih (retry + 1) (fun k hk1 hk2 => h k (by omega) (by omega))
    omega

/-- When the wait loop stops before exhausting its fuel, the interface was
up at the poll it stopped on. -/
theorem waitUsb0From_up (up : Nat → Bool) :
    ∀ fuel retry, waitUsb0From up retry fuel < retry + fuel →
      up (waitUsb0From up retry fuel) = true := by
  intro fuel
  induction fuel with
  | zero => intro retry h; simp [waitUsb0From] at h
  | succ f ih =>
    intro retry h
    cases hu : up retry
    · simp only [waitUsb0From, hu, Bool.false_eq_true, if_false] at h ⊢
      exact ih (retry + 1) (by omega)
    · simp only [waitUsb0From, hu, if_true]

/-- The wait loop performs at most `fuel` interface tests. -/
theorem waitUsb0PollsFrom_le (up : Nat → Bool) :
    ∀ fuel retry, waitUsb0PollsFrom up retry fuel ≤ fuel := by
  intro fuel
  induction fuel with
  | zero => intro retry; simp [waitUsb0PollsFrom]
  | succ f ih =>
    intro retry
    cases hu : up retry
    · simp only [waitUsb0PollsFrom, hu, Bool.false_eq_true, if_false]
      have := ih (retry + 1)
      omega
    · simp only [waitUsb0PollsFrom, hu, if_true]
      omega

/-- C1: for every valid menu selection n (1 <= n <= 8) — that is, whenever
the selection dialogue returns option n of the menu — the program performs
exactly these filesystem-mutating steps in this order and nothing else:
it copies `consoles/<Real of option n>` into the current directory; then,
if `consoles/<Logo of option n>` exists, copies that logo directory into
the current directory; then creates the `.cn` marker; then terminates.
Stated on runs where the console directory exists and the copies succeed,
which is the run the claim describes. -/
theorem xifan_main_flow (n : Nat) (hn : n - 1 < XiFanOptions.length) (_h1 : 1 ≤ n)
    (input rest : List String) (fs : FsState)
    (hsel : selectXiFan input = SelResult.selected (XiFanOptions.get ⟨n - 1, hn⟩) rest)
    (hr : fs.dirExists (filepathJoin "consoles" (XiFanOptions.get ⟨n - 1, hn⟩).real) = true)
    (hc : ∀ p, fs.copyOk p = true) :
    runProgram input fs =
      [Effect.copyDir (filepathJoin "consoles" (XiFanOptions.get ⟨n - 1, hn⟩).real)] ++
      (if fs.dirExists (filepathJoin "consoles" (XiFanOptions.get ⟨n - 1, hn⟩).logo) then
        [Effect.copyDir (filepathJoin "consoles" (XiFanOptions.get ⟨n - 1, hn⟩).logo)]
       else []) ++
      [Effect.createCN] := by
  simp only [runProgram, hsel]
  exact mainAfterSelect_success _ fs (xifan_logo_nonempty ⟨n - 1, hn⟩) hr hc

/-- Witness for C1 at selection 3 on an all-good filesystem. -/
theorem xifan_main_flow_witness :
    runProgram ["3"] fsAllOk =
      [Effect.copyDir "consoles/r36pro", Effect.copyDir "consoles/logo/480P/",
       Effect.createCN] := by
  have h := xifan_main_flow 3 (by decide) (by decide) ["3"] [] fsAllOk (by decide) rfl
    (fun _ => rfl)
  simpa [fsAllOk] using h

/-- C6: an input line that is neither numeric nor a quit token re-prompts;
a numeric input outside 1..8 other than 0 re-prompts; an input of 0 or of
"q", "quit" or "exit" (after trimming and lower-casing) quits, and the
program then performs no copy and creates no `.cn` file. -/
theorem menu_input_handling (s : String) (rest : List String) (fs : FsState) :
    (isQuitToken (trimSpace s) = false → strconvAtoi (trimSpace s) = none →
      readIntChoice (s :: rest) = readIntChoice rest) ∧
    (∀ n : Int, isQuitToken (trimSpace s) = false → strconvAtoi (trimSpace s) = some n →
      n ≠ 0 → ¬(0 < n ∧ n ≤ (XiFanOptions.length : Int)) →
      selectXiFan (s :: rest) = selectXiFan rest) ∧
    ((isQuitToken (trimSpace s) = true ∨ strconvAtoi (trimSpace s) = some 0) →
      selectXiFan (s :: rest) = SelResult.quit rest ∧ runProgram (s :: rest) fs = []) := by
  refine ⟨?_, ?_, ?_⟩
  · intro hq ha
    simp [readIntChoice, readHead, hq, ha]
  · intro n hq ha hn hrange
    simp [selectXiFan, readHead, hq, ha, hn, hrange]
  · intro h
    have hh : readHead s = some 0 := by
      unfold readHead
      rcases h with hq | ha
      · simp [hq]
      · cases hq2 : isQuitToken (trimSpace s) <;> simp [ha]
    exact ⟨by simp [selectXiFan, hh], by simp [runProgram, selectXiFan, hh]⟩

/-- Witness for C6: a non-numeric line re-prompts, 9 is rejected, "q"
quits with no effects. -/
theorem menu_input_handling_witness :
    readIntChoice ["abc", "2"] = readIntChoice ["2"] ∧
    selectXiFan ["9", "q"] = selectXiFan ["q"] ∧
    runProgram ["q"] fsAllOk = [] := by
  refine ⟨?_, ?_, ?_⟩
  · exact (menu_input_handling "abc" ["2"] fsAllOk).1 (by decide) (by decide)
  · exact (menu_input_handling "9" ["q"] fsAllOk).2.1 9 (by decide) (by decide)
      (by decide) (by decide)
  · exact ((menu_input_handling "q" [] fsAllOk).2.2 (Or.inl (by decide))).2

/-- C10: for every input sequence, the selection loop never reaches the
out-of-bounds access case, and every selected option is
`XiFanOptions[choice-1]` for some in-range choice. -/
theorem selectXiFan_index_safe (input : List String) :
    selectXiFan input ≠ SelResult.panicked ∧
    (∀ o rest, selectXiFan input = SelResult.selected o rest →
      ∃ c : Nat, 1 ≤ c ∧ c ≤ XiFanOptions.length ∧
        ∃ h : c - 1 < XiFanOptions.length, o = XiFanOptions.get ⟨c - 1, h⟩) := by
  induction input with
  | nil =>
    refine ⟨by simp [selectXiFan], ?_⟩
    intro o rest h
    simp [selectXiFan] at h
  | cons s rest ih =>
    cases hh : readHead s with
    | none =>
      refine ⟨?_, ?_⟩
      · simpa [selectXiFan, hh] using ih.1
      · intro o r h
        rw [show selectXiFan (s :: rest) = selectXiFan rest by simp [selectXiFan, hh]] at h
        exact ih.2 o r h
    | some n =>
      by_cases h0 : n = 0
      · subst h0
        refine ⟨by simp [selectXiFan, hh], ?_⟩
        intro o r h
        simp [selectXiFan, hh] at h
      · by_cases hr : 0 < n ∧ n ≤ (XiFanOptions.length : Int)
        · have hlt : (n - 1).toNat < XiFanOptions.length := by omega
          have hget : XiFanOptions.get? (n - 1).toNat =
              some (XiFanOptions.get ⟨(n - 1).toNat, hlt⟩) := List.get?_eq_get hlt
          have hsel : selectXiFan (s :: rest) =
              SelResult.selected (XiFanOptions.get ⟨(n - 1).toNat, hlt⟩) rest := by
            simp only [selectXiFan, hh]
            rw [if_neg h0, if_pos hr, hget]
          refine ⟨by simp [hsel], ?_⟩
          intro o r h
          rw [hsel] at h
          obtain ⟨ho, -⟩ := SelResult.selected.inj h
          exact ⟨(n - 1).toNat + 1, by omega, by omega, by simpa using hlt, by simp [← ho]⟩
        · refine ⟨?_, ?_⟩
          · simpa [selectXiFan, hh, h0, hr] using ih.1
          · intro o r h
            rw [show selectXiFan (s :: rest) = selectXiFan rest by
              simp [selectXiFan, hh, h0, hr]] at h
            exact ih.2 o r h

/-- Witness for C10 at input "2". -/
theorem selectXiFan_index_safe_witness :
    ∃ c : Nat, 1 ≤ c ∧ c ≤ XiFanOptions.length ∧
      ∃ h : c - 1 < XiFanOptions.length,
        XiFanOptions.get ⟨1, by decide⟩ = XiFanOptions.get ⟨c - 1, h⟩ :=
  (selectXiFan_index_safe ["2"]).2 (XiFanOptions.get ⟨1, by decide⟩) [] (by decide)

/-- C8: menu options 6 ("XiFan XF40V") and 7 ("XiFan DC40V") differ only in
their display name: both carry Real "dc40v" and Logo "logo/720P/", so on
every filesystem state the copy pipeline performs the same calls for
either, and a run that selects 6 equals a run that selects 7. -/
theorem options_xf40v_dc40v_equiv :
    (XiFanOptions.get ⟨5, by decide⟩).display = "XiFan XF40V" ∧
    (XiFanOptions.get ⟨6, by decide⟩).display = "XiFan DC40V" ∧
    (XiFanOptions.get ⟨5, by decide⟩).real = "dc40v" ∧
    (XiFanOptions.get ⟨6, by decide⟩).real = "dc40v" ∧
    (XiFanOptions.get ⟨5, by decide⟩).logo = "logo/720P/" ∧
    (XiFanOptions.get ⟨6, by decide⟩).logo = "logo/720P/" ∧
    (∀ fs : FsState, mainAfterSelect (XiFanOptions.get ⟨5, by decide⟩) fs =
      mainAfterSelect (XiFanOptions.get ⟨6, by decide⟩) fs) ∧
    (∀ fs : FsState, runProgram ["6"] fs = runProgram ["7"] fs) :=
  ⟨rfl, rfl, rfl, rfl, rfl, rfl, fun _ => rfl, fun _ => rfl⟩

/-- C9: the `.cn` marker call happens only after success of every
preceding step: if the console directory is missing, or its copy fails, or
a present logo directory fails to copy, `main` returns without calling
`createCNFile`. -/
theorem cn_marker_requires_success (o : XiFanOption) (fs : FsState)
    (h : fs.dirExists (filepathJoin "consoles" o.real) = false ∨
         fs.copyOk (filepathJoin "consoles" o.real) = false ∨
         (o.logo ≠ "" ∧ fs.dirExists (filepathJoin "consoles" o.logo) = true ∧
          fs.copyOk (filepathJoin "consoles" o.logo) = false)) :
    Effect.createCN ∉ mainAfterSelect o fs := by
  unfold mainAfterSelect
  rcases h with h | h | ⟨h1, h2, h3⟩
  · simp [h]
  · cases hd : fs.dirExists (filepathJoin "consoles" o.real) <;> simp [h, hd]
  · cases hd : fs.dirExists (filepathJoin "consoles" o.real) <;>
      cases hc : fs.copyOk (filepathJoin "consoles" o.real) <;>
      simp [h1, h2, h3, hd, hc]

/-- Witness for C9: a filesystem with nothing present gets no `.cn` call. -/
theorem cn_marker_requires_success_witness :
    Effect.createCN ∉
      mainAfterSelect ⟨"XiFan Mymini", "mymini", "logo/480P/"⟩
        ⟨fun _ => false, fun _ => false⟩ :=
  cn_marker_requires_success _ _ (Or.inl rfl)

/-- C3: the `usb0` readiness check is a bounded polling loop: it tests the
interface at most 10 times; as soon as the interface is up it stops (its
result is at most any up index, and the poll it stops on is an up poll);
and when the interface never appears in the 10 polls, the counter reaches
10 and `configure_usb_gadget` returns failure. -/
theorem usb0_wait_bounded (e : OtgEnv) :
    waitUsb0Polls e.usb0UpAt ≤ 10 ∧
    (∀ k, k < 10 → e.usb0UpAt k = true →
      waitUsb0 e.usb0UpAt ≤ k ∧ waitUsb0 e.usb0UpAt < 10 ∧
      e.usb0UpAt (waitUsb0 e.usb0UpAt) = true) ∧
    ((∀ k, k < 10 → e.usb0UpAt k = false) →
      waitUsb0 e.usb0UpAt = 10 ∧ (configure_usb_gadget e).1 = false) := by
  refine ⟨waitUsb0PollsFrom_le _ 10 0, ?_, ?_⟩
  · intro k hk hup
    have h1 : waitUsb0 e.usb0UpAt ≤ k := waitUsb0From_min _ 10 0 k (Nat.zero_le k) hup
    have h2 : waitUsb0 e.usb0UpAt < 10 := lt_of_le_of_lt h1 hk
    have h2a : waitUsb0From e.usb0UpAt 0 10 < 0 + 10 := by simpa [waitUsb0] using h2
    exact ⟨h1, h2, waitUsb0From_up _ 10 0 h2a⟩
  · intro hall
    have h10 : waitUsb0 e.usb0UpAt = 10 := by
      have := waitUsb0From_all_false e.usb0UpAt 10 0 (fun k _ hk2 => hall k (by omega))
      simpa [waitUsb0] using this
    refine ⟨h10, ?_⟩
    simp only [configure_usb_gadget, h10]
    split_ifs <;> simp_all

/-- Witness for C3 on the environment where `usb0` never appears. -/
theorem usb0_wait_bounded_witness :
    waitUsb0 otgEnvDown.usb0UpAt = 10 ∧ (configure_usb_gadget otgEnvDown).1 = false :=
  (usb0_wait_bounded otgEnvDown).2.2 (fun _ _ => rfl)

/-- C2: on every run — in particular whatever steps fail — the script's
`main` invokes the four bring-up procedures `configure_usb_gadget`,
`configure_network`, `start_dhcp_service`, `start_ssh_service` in that
fixed order, each exactly once, after the terminal and gamepad setup. -/
theorem otg_main_step_order (e : OtgEnv) :
    otgSteps e = [OtgStep.terminal, OtgStep.gamepad, OtgStep.gadget, OtgStep.network,
      OtgStep.dhcp, OtgStep.ssh] ∧
    (otgSteps e).count OtgStep.gadget = 1 ∧ (otgSteps e).count OtgStep.network = 1 ∧
    (otgSteps e).count OtgStep.dhcp = 1 ∧ (otgSteps e).count OtgStep.ssh = 1 := by
  have h : otgSteps e = [OtgStep.terminal, OtgStep.gamepad, OtgStep.gadget,
      OtgStep.network, OtgStep.dhcp, OtgStep.ssh] := by
    simp [otgSteps, otgMain, stepEvents, List.filterMap_append, List.filterMap_cons,
      filterMap_callOf_logs, callOf]
  exact ⟨h, by rw [h]; rfl, by rw [h]; rfl, by rw [h]; rfl, by rw [h]; rfl⟩

/-- C4 counterexample: on the environment where `usb0` exists and `ip` is
available but `ip addr add` fails, `configure_network` returns failure and
never attempts to bring the link up — the claim's "otherwise it assigns
the static address ... and brings the interface up, returning success" is
false there. -/
theorem configure_network_claim_cex :
    otgEnvIpAddFail.usb0Exists = true ∧ otgEnvIpAddFail.hasIp = true ∧
    (configure_network otgEnvIpAddFail).1 = false ∧
    (configure_network otgEnvIpAddFail).2.1 ≠
      [NetAction.flushAddr, NetAction.addAddr "192.168.7.1/24", NetAction.linkUp] := by
  exact ⟨rfl, rfl, rfl, by decide⟩

/-- C4 as amended: `configure_network` fails attempting no configuration
command when `usb0` does not exist or no tool is available; when `usb0`
exists and `ip` is available it succeeds exactly when both `ip addr add
192.168.7.1/24` and `ip link set usb0 up` succeed, in which case it
attempted exactly the flush, the address assignment and the link-up; when
only `ifconfig` is available it succeeds exactly when the single
`ifconfig` configuration command succeeds. -/
theorem configure_network_spec (e : OtgEnv) :
    (e.usb0Exists = false →
      configure_network e = (false, [], ["[ERROR] usb0 does not exist"])) ∧
    (e.usb0Exists = true → e.hasIp = false → e.hasIfconfig = false →
      configure_network e = (false, [], ["[ERROR] No ip or ifconfig found"])) ∧
    (e.usb0Exists = true → e.hasIp = true →
      ((configure_network e).1 = true ↔ e.ipAddrAddOk = true ∧ e.ipLinkUpOk = true) ∧
      ((configure_network e).1 = true →
        (configure_network e).2.1 =
          [NetAction.flushAddr, NetAction.addAddr "192.168.7.1/24", NetAction.linkUp])) ∧
    (e.usb0Exists = true → e.hasIp = false → e.hasIfconfig = true →
      ((configure_network e).1 = true ↔ e.ifconfigOk = true) ∧
      (configure_network e).2.1 = [NetAction.ifconfigSet "192.168.7.1" "255.255.255.0"]) := by
  refine ⟨?_, ?_, ?_, ?_⟩
  · intro h; simp [configure_network, h]
  · intro h1 h2 h3; simp [configure_network, h1, h2, h3]
  · intro h1 h2
    cases ha : e.ipAddrAddOk <;> cases hl : e.ipLinkUpOk <;>
      simp [configure_network, h1, h2, ha, hl]
  · intro h1 h2 h3
    cases ho : e.ifconfigOk <;> simp [configure_network, h1, h2, h3, ho]

/-- Witness for the amended C4 on the environment without `usb0`. -/
theorem configure_network_spec_witness :
    configure_network otgEnvNoUsb0 = (false, [], ["[ERROR] usb0 does not exist"]) :=
  (configure_network_spec otgEnvNoUsb0).1 rfl

/-- C5: the remapping script acts only on a device whose device-tree model
contains "D007 Plus"; and for every event line, following the `if/elif`
priority of the source: a BTN_BACK line with value 1 invokes startselect
and a BTN_BACK line without value 1 invokes nothing; a BTN_SELECT line
invokes select_press on value 1, select_release on value 0, nothing
otherwise; a BTN_START line invokes start_press on value 1, start_release
on value 0, nothing otherwise; a line naming none of the three buttons
invokes nothing. -/
theorem adckeys_dispatch_spec (model line : String) (lines : List String) :
    (containsSub model "D007 Plus" = false → adckeysRun model lines = []) ∧
    (containsSub line "BTN_BACK" = true → containsSub line "value 1" = true →
      dispatchLine line = some "startselect") ∧
    (containsSub line "BTN_BACK" = true → containsSub line "value 1" = false →
      dispatchLine line = none) ∧
    (containsSub line "BTN_BACK" = false → containsSub line "BTN_SELECT" = true →
      containsSub line "value 1" = true → dispatchLine line = some "select_press") ∧
    (containsSub line "BTN_BACK" = false → containsSub line "BTN_SELECT" = true →
      containsSub line "value 1" = false → containsSub line "value 0" = true →
      dispatchLine line = some "select_release") ∧
    (containsSub line "BTN_BACK" = false → containsSub line "BTN_SELECT" = true →
      containsSub line "value 1" = false → containsSub line "value 0" = false →
      dispatchLine line = none) ∧
    (containsSub line "BTN_BACK" = false → containsSub line "BTN_SELECT" = false →
      containsSub line "BTN_START" = true → containsSub line "value 1" = true →
      dispatchLine line = some "start_press") ∧
    (containsSub line "BTN_BACK" = false → containsSub line "BTN_SELECT" = false →
      containsSub line "BTN_START" = true → containsSub line "value 1" = false →
      containsSub line "value 0" = true → dispatchLine line = some "start_release") ∧
    (containsSub line "BTN_BACK" = false → containsSub line "BTN_SELECT" = false →
      containsSub line "BTN_START" = true → containsSub line "value 1" = false →
      containsSub line "value 0" = false → dispatchLine line = none) ∧
    (containsSub line "BTN_BACK" = false → containsSub line "BTN_SELECT" = false →
      containsSub line "BTN_START" = false → dispatchLine line = none) := by
  refine ⟨?_, ?_, ?_, ?_, ?_, ?_, ?_, ?_, ?_, ?_⟩ <;>
    intros <;> simp_all [dispatchLine, adckeysRun]

/-- Witness for C5: a BTN_BACK press line dispatches startselect, and a
non-matching device model yields no invocation at all. -/
theorem adckeys_dispatch_spec_witness :
    dispatchLine "type 1 (EV_KEY), code 278 (BTN_BACK), value 1" = some "startselect" ∧
    adckeysRun "Anbernic RG353P" ["type 1 (EV_KEY), code 278 (BTN_BACK), value 1"] = [] := by
  constructor
  · exact (adckeys_dispatch_spec "Anbernic RG353P"
      "type 1 (EV_KEY), code 278 (BTN_BACK), value 1" []).2.1 (by decide) (by decide)
  · exact (adckeys_dispatch_spec "Anbernic RG353P"
      "type 1 (EV_KEY), code 278 (BTN_BACK), value 1"
      ["type 1 (EV_KEY), code 278 (BTN_BACK), value 1"]).1 (by decide)

end Arkos
